import Mathlib

/-!
Verification of the realtime state-synchronization layer of the Secretly app
(src/src/App.jsx). The Firestore collections used by the component are
modelled as key-to-document maps represented as association lists; the React
handlers become pure state-transition functions over a `Store` (the backend)
and a `Session` (the component state relevant to the claims), and the
`onSnapshot` subscriptions become the filter/sort pipelines the component
installs on its queries.
-/

namespace Secretly

/-- Server timestamps (`serverTimestamp()`), modelled by their `seconds`
field as a natural number. -/
abbrev Timestamp := Nat

/-- JavaScript `String.prototype.trim`: removes whitespace from both ends of
the string. (Lean's builtin `String.trim` is not used because it does not
reduce in the kernel.) -/
def jsTrim (s : String) : String :=
  ⟨((s.data.dropWhile Char.isWhitespace).reverse.dropWhile Char.isWhitespace).reverse⟩

/-- A document of the `users` collection (`{ name: editingName.trim() }`). -/
structure Profile where
  name : String
deriving DecidableEq

/-- A document of the `groups` collection (fields written by
`handleCreateGroup`). -/
structure Group where
  groupName : String
  creatorId : String
  createdAt : Timestamp
deriving DecidableEq

/-- A document of a `groups/{groupId}/members` subcollection (fields written
by `handleCreateGroup` and `handleJoinGroup`). -/
structure Membership where
  userName : String
  joinedAt : Timestamp
deriving DecidableEq

/-- A document of the `compliments` collection together with its
server-generated document id; `timestamp` is `none` while the server
timestamp of an in-flight write is not yet populated. -/
structure Compliment where
  id : String
  senderId : String
  receiverId : String
  groupId : String
  message : String
  timestamp : Option Timestamp
deriving DecidableEq

/-- The Firestore state used by App.jsx. Each collection is a key-to-document
map represented as an association list; membership documents live at the path
`groups/{groupId}/members/{memberId}` and are keyed by that pair. -/
structure Store where
  users : List (String × Profile)
  groups : List (String × Group)
  members : List ((String × String) × Membership)
  compliments : List Compliment
deriving DecidableEq

/-- Firestore `setDoc` at a key: replaces the document stored at that key
(full replace, creating it when absent). -/
def upsert {α β : Type} [DecidableEq α] (k : α) (v : β)
    (l : List (α × β)) : List (α × β) :=
  l.filter (fun p => decide (p.1 ≠ k)) ++ [(k, v)]

/-- Firestore `getDoc` at a key: the document stored there, if any. -/
def lookupKey {α β : Type} [DecidableEq α] (k : α) (l : List (α × β)) : Option β :=
  (l.find? (fun p => decide (p.1 = k))).map Prod.snd

theorem lookupKey_upsert_self {α β : Type} [DecidableEq α]
    (k : α) (v : β) (l : List (α × β)) :
    lookupKey k (upsert k v l) = some v := by
  unfold lookupKey upsert
  rw [List.find?_append]
  have h1 : (l.filter fun p => decide (p.1 ≠ k)).find? (fun p => decide (p.1 = k)) = none := by
    rw [List.find?_eq_none]
    intro x hx
    have hx2 := (List.mem_filter.mp hx).2
    simp only [decide_eq_true_eq] at hx2 ⊢
    exact hx2
  simp [h1]

theorem countKey_upsert {α β : Type} [DecidableEq α]
    (k : α) (v : β) (l : List (α × β)) :
    (upsert k v l).countP (fun p => decide (p.1 = k)) = 1 := by
  unfold upsert
  rw [List.countP_append]
  have h1 : (l.filter fun p => decide (p.1 ≠ k)).countP (fun p => decide (p.1 = k)) = 0 := by
    rw [List.countP_eq_zero]
    intro x hx
    have hx2 := (List.mem_filter.mp hx).2
    simp only [decide_eq_true_eq] at hx2 ⊢
    exact hx2
  simp [h1]

/-- One `showNotification(message, type)` call; `isError` records whether the
type argument was the error variant. -/
structure Notice where
  message : String
  isError : Bool
deriving DecidableEq

/-- The component state relevant to the claims: the authenticated user id and
display name, the current group selection (`currentGroupId`), the
localStorage side-channel (`lastGroupId`), and the sequence of notices raised
by `showNotification` calls, in order. -/
structure Session where
  userId : String
  userName : String
  currentGroupId : Option String
  lastGroupId : Option String
  notices : List Notice
deriving DecidableEq

/-- Raise a notice: `showNotification` stores it into the single notification
state slot; the sequence of calls is recorded in order. -/
def showNotification (s : Session) (message : String) (isError : Bool) : Session :=
  { s with notices := s.notices ++ [⟨message, isError⟩] }

/-- The single visible notification slot: each `showNotification` call
replaces the previous notification state, so the visible notice is the most
recently raised one. -/
def visibleNotice (s : Session) : Option Notice :=
  s.notices.getLast?

/-- Outcome of `handleSaveName`, one constructor per return path. -/
inductive SaveNameResult
  | validationEmptyName
  | noUser
  | ok
deriving DecidableEq

/-- `handleSaveName` (App.jsx lines 142-155): rejects a name that trims to
empty, otherwise `setDoc(doc(db, "users", userId), { name: editingName.trim() })`
fully replaces the profile document. The `userId` component state is
`string | null`, modelled as `Option String`. -/
def handleSaveName (store : Store) (userId : Option String) (editingName : String) :
    SaveNameResult × Store :=
  if jsTrim editingName = "" then (.validationEmptyName, store)
  else
    match userId with
    | none => (.noUser, store)
    | some uid =>
        (.ok, { store with users := upsert uid ⟨jsTrim editingName⟩ store.users })

/-- The profile `onSnapshot` handler (App.jsx lines 74-83): when the document
exists with a truthy (nonempty) `name` field it yields that name to the view;
otherwise the component enters name-editing mode (`none`). -/
def subscribeProfile (store : Store) (uid : String) : Option String :=
  match lookupKey uid store.users with
  | some p => if p.name = "" then none else some p.name
  | none => none

/-- Outcome of `handleCreateGroup`, one constructor per return path. -/
inductive CreateResult
  | validationEmptyGroupName
  | validationNoDisplayName
  | ok (groupId : String)
  | writeError
deriving DecidableEq

/-- `handleCreateGroup` (App.jsx lines 157-186). `newGroupId` is the fresh
server-generated id of `doc(collection(db, "groups"))`, `now` the server
timestamp, and `commitOk` whether `batch.commit()` succeeds. The two
`batch.set` calls stage the Group document and the creator's Membership
document; `writeBatch` applies them atomically, so the commit makes both
visible or, on failure, neither. -/
def handleCreateGroup (store : Store) (s : Session) (newGroupName newGroupId : String)
    (now : Timestamp) (commitOk : Bool) : CreateResult × Store × Session :=
  if jsTrim newGroupName = "" then
    (.validationEmptyGroupName, store, showNotification s "Please enter a group name." true)
  else if s.userName = "" then
    (.validationNoDisplayName, store, showNotification s "Please set your display name first." true)
  else if commitOk then
    (.ok newGroupId,
     { store with
        groups := upsert newGroupId ⟨jsTrim newGroupName, s.userId, now⟩ store.groups,
        members := upsert (newGroupId, s.userId) ⟨s.userName, now⟩ store.members },
     showNotification
       { s with currentGroupId := some newGroupId, lastGroupId := some newGroupId }
       ("Group \"" ++ newGroupName ++ "\" created!") false)
  else
    (.writeError, store, showNotification s "Could not create the group." true)

/-- Outcome of `handleJoinGroup`, one constructor per return path. -/
inductive JoinResult
  | validationEmptyGroupId
  | validationNoDisplayName
  | notFound
  | ok
deriving DecidableEq

/-- `handleJoinGroup` (App.jsx lines 188-213): rejects an id that trims to
empty and an unset display name; `getDoc` on `groups/{trimmed id}` decides
existence; on success `setDoc` upserts the Membership document keyed by
(groupId, userId) and the group selection and remembered id are updated. -/
def handleJoinGroup (store : Store) (s : Session) (groupIdToJoin : String)
    (now : Timestamp) : JoinResult × Store × Session :=
  if jsTrim groupIdToJoin = "" then
    (.validationEmptyGroupId, store, showNotification s "Please enter a Group ID." true)
  else if s.userName = "" then
    (.validationNoDisplayName, store, showNotification s "Please set your display name first." true)
  else
    match lookupKey (jsTrim groupIdToJoin) store.groups with
    | none =>
        (.notFound, store, showNotification s "No group found with that ID." true)
    | some grp =>
        (.ok,
         { store with
            members := upsert (jsTrim groupIdToJoin, s.userId) ⟨s.userName, now⟩ store.members },
         showNotification
           { s with
              currentGroupId := some (jsTrim groupIdToJoin),
              lastGroupId := some (jsTrim groupIdToJoin) }
           ("Successfully joined \"" ++ grp.groupName ++ "\"!") false)

/-- `handleLeaveGroup` (App.jsx lines 215-219): clears the group selection
and the localStorage side-channel, touches no store document, and raises its
own notice. -/
def handleLeaveGroup (s : Session) : Session :=
  showNotification
    { s with currentGroupId := none, lastGroupId := none }
    "You have left the group." false

/-- The group-meta `onSnapshot` handler (App.jsx lines 100-107) for the
subscribed group `gid`: while the document exists it publishes its
`groupName` field; on observing the document absent it raises the deletion
notice and calls `handleLeaveGroup`. Returns the updated session and the
`groupName` component state. -/
def onGroupSnapshot (store : Store) (s : Session) (gid : String)
    (groupNameState : String) : Session × String :=
  match lookupKey gid store.groups with
  | some g => (s, g.groupName)
  | none =>
      (handleLeaveGroup
        (showNotification s "The group you were in may have been deleted." true),
       groupNameState)

/-- Outcome of `handleSendCompliment`. -/
inductive SendResult
  | validationError
  | ok
deriving DecidableEq

/-- `handleSendCompliment` (App.jsx lines 221-241): rejects a falsy (empty)
`selectedFriendId` or a message that trims to empty; otherwise `addDoc`
appends one record carrying the untrimmed message and the server timestamp.
`newId` is the fresh server-generated record id, `now` the server time. -/
def handleSendCompliment (store : Store) (userId selectedFriendId : String)
    (currentGroupId : String) (complimentMessage : String)
    (newId : String) (now : Timestamp) : SendResult × Store :=
  if selectedFriendId = "" ∨ jsTrim complimentMessage = "" then
    (.validationError, store)
  else
    (.ok,
     { store with
        compliments := store.compliments ++
          [⟨newId, userId, selectedFriendId, currentGroupId, complimentMessage, some now⟩] })

/-- A roster entry as the members `onSnapshot` handler builds it
(`{ id: d.id, ...d.data() }`, App.jsx lines 110-113). -/
structure Member where
  id : String
  userName : String
  joinedAt : Timestamp
deriving DecidableEq

/-- The members `onSnapshot` pipeline (App.jsx lines 109-113): the documents
of `groups/{gid}/members` mapped to roster entries. -/
def subscribeRoster (store : Store) (gid : String) : List Member :=
  (store.members.filter (fun p => decide (p.1.1 = gid))).map
    (fun p => ⟨p.1.2, p.2.userName, p.2.joinedAt⟩)

/-- The sort key `(c.timestamp?.seconds || 0)`: a missing server timestamp is
treated as 0. -/
def tsKey (c : Compliment) : Nat :=
  c.timestamp.getD 0

/-- The comparator `(b.timestamp?.seconds || 0) - (a.timestamp?.seconds || 0)`
passed to `Array.prototype.sort`: `a` may precede `b` exactly when the key of
`b` does not exceed the key of `a` (descending order). -/
def complimentLe (a b : Compliment) : Bool :=
  decide (tsKey b ≤ tsKey a)

/-- `Array.prototype.sort` with the descending-timestamp comparator.
ECMAScript requires the sort to be stable, so it is modelled by a stable
merge sort. -/
def sortByTimestampDesc (l : List Compliment) : List Compliment :=
  l.mergeSort complimentLe

/-- The query result of `receivedQuery` (App.jsx line 115): compliments with
`receiverId == userId` and `groupId == currentGroupId`. -/
def receivedDocs (store : Store) (userId currentGroupId : String) : List Compliment :=
  store.compliments.filter
    (fun c => decide (c.receiverId = userId) && decide (c.groupId = currentGroupId))

/-- The query result of `sentQuery` (App.jsx line 121): compliments with
`senderId == userId` and `groupId == currentGroupId`. -/
def sentDocs (store : Store) (userId currentGroupId : String) : List Compliment :=
  store.compliments.filter
    (fun c => decide (c.senderId = userId) && decide (c.groupId = currentGroupId))

/-- The received-compliments `onSnapshot` pipeline (App.jsx lines 115-119):
the filtered query results, resorted on every push. -/
def subscribeReceived (store : Store) (userId currentGroupId : String) : List Compliment :=
  sortByTimestampDesc (receivedDocs store userId currentGroupId)

/-- The sent-compliments `onSnapshot` pipeline (App.jsx lines 121-125). -/
def subscribeSent (store : Store) (userId currentGroupId : String) : List Compliment :=
  sortByTimestampDesc (sentDocs store userId currentGroupId)

theorem complimentLe_trans (a b c : Compliment) :
    complimentLe a b = true → complimentLe b c = true → complimentLe a c = true := by
  unfold complimentLe
  intro h1 h2
  simp only [decide_eq_true_eq] at h1 h2 ⊢
  exact le_trans h2 h1

theorem complimentLe_total (a b : Compliment) :
    (complimentLe a b || complimentLe b a) = true := by
  unfold complimentLe
  rcases Nat.le_total (tsKey b) (tsKey a) with h | h <;> simp [h]

theorem sortByTimestampDesc_perm (l : List Compliment) :
    (sortByTimestampDesc l).Perm l :=
  List.mergeSort_perm l complimentLe

theorem sortByTimestampDesc_sorted (l : List Compliment) :
    (sortByTimestampDesc l).Pairwise (fun a b => tsKey b ≤ tsKey a) := by
  have h := List.sorted_mergeSort complimentLe_trans complimentLe_total l
  refine h.imp ?_
  intro a b hab
  simpa [complimentLe] using hab

theorem sortByTimestampDesc_stable (l : List Compliment) (k : Nat) :
    (sortByTimestampDesc l).filter (fun c => decide (tsKey c = k)) =
      l.filter (fun c => decide (tsKey c = k)) := by
  have hpair : (l.filter (fun c => decide (tsKey c = k))).Pairwise
      (fun a b => complimentLe a b = true) := by
    apply List.pairwise_of_forall_mem_list
    intro a ha b hb
    have ha2 := (List.mem_filter.mp ha).2
    have hb2 := (List.mem_filter.mp hb).2
    simp only [decide_eq_true_eq] at ha2 hb2
    simp [complimentLe, ha2, hb2]
  have hsub : (l.filter (fun c => decide (tsKey c = k))).Sublist (sortByTimestampDesc l) :=
    List.sublist_mergeSort complimentLe_trans complimentLe_total hpair
      (List.filter_sublist l)
  have hsub2 : (l.filter (fun c => decide (tsKey c = k))).Sublist
      ((sortByTimestampDesc l).filter (fun c => decide (tsKey c = k))) := by
    have h := hsub.filter (fun c => decide (tsKey c = k))
    simpa [List.filter_filter] using h
  have hlen : ((sortByTimestampDesc l).filter (fun c => decide (tsKey c = k))).length =
      (l.filter (fun c => decide (tsKey c = k))).length :=
    ((sortByTimestampDesc_perm l).filter _).length_eq
  exact (hsub2.eq_of_length hlen.symm).symm

/-- The four instances of `onSnapshot` installed by the group/compliments
effect (App.jsx lines 90-133). -/
inductive SubKind
  | groupMeta
  | roster
  | received
  | sent
deriving DecidableEq

/-- A live subscription handle, keyed by the (userId, groupId) pair of the
effect run that installed it and by which of the four queries it serves. -/
structure Subscription where
  userId : String
  groupId : String
  kind : SubKind
deriving DecidableEq

/-- The subscriptions the group/compliments effect installs for given
dependencies (App.jsx lines 90-133): none while auth, user id or group id is
missing (the guard at lines 91-97), otherwise the four live subscriptions
keyed on the current (userId, currentGroupId) pair. -/
def effectSubs (isAuthReady : Bool) (userId currentGroupId : Option String) :
    List Subscription :=
  match isAuthReady, userId, currentGroupId with
  | true, some u, some g =>
      [⟨u, g, .groupMeta⟩, ⟨u, g, .roster⟩, ⟨u, g, .received⟩, ⟨u, g, .sent⟩]
  | _, _, _ => []

/-- The cleanup function the effect returns (App.jsx lines 127-132) calls the
disposer of every subscription the run installed: none survives it. -/
def cleanupEffect (_installed : List Subscription) : List Subscription :=
  []

/-- React effect semantics on a dependency change: the previous run's cleanup
disposes its subscriptions before the new body installs fresh ones, so the
active set afterwards is what remains of the old set after cleanup, plus the
newly installed subscriptions. -/
def runEffect (prev : List Subscription) (isAuthReady : Bool)
    (userId currentGroupId : Option String) : List Subscription :=
  cleanupEffect prev ++ effectSubs isAuthReady userId currentGroupId

/-- The component state fed by the four subscriptions (App.jsx lines 40-44). -/
structure Views where
  groupName : String
  groupMembers : List Member
  receivedCompliments : List Compliment
  sentCompliments : List Compliment
deriving DecidableEq

/-- A push on the received query of the (u, g) pair reaches the view only
through a matching active subscription. -/
def deliverReceived (subs : List Subscription) (v : Views) (u g : String)
    (data : List Compliment) : Views :=
  if (Subscription.mk u g .received) ∈ subs then
    { v with receivedCompliments := data } else v

/-- A push on the sent query of the (u, g) pair. -/
def deliverSent (subs : List Subscription) (v : Views) (u g : String)
    (data : List Compliment) : Views :=
  if (Subscription.mk u g .sent) ∈ subs then
    { v with sentCompliments := data } else v

/-- A push on the members query of group g, subscribed by user u. -/
def deliverRoster (subs : List Subscription) (v : Views) (u g : String)
    (data : List Member) : Views :=
  if (Subscription.mk u g .roster) ∈ subs then
    { v with groupMembers := data } else v

/-- A push on the group document of group g, subscribed by user u. -/
def deliverGroupMeta (subs : List Subscription) (v : Views) (u g : String)
    (data : String) : Views :=
  if (Subscription.mk u g .groupMeta) ∈ subs then
    { v with groupName := data } else v

/-- C1: group creation writes the Group document and the creator's Membership
document in one atomic batch: a successful `handleCreateGroup` call makes
both documents visible together, and any observer of the new group sees a
roster of size at least 1; on commit failure the store is unchanged, so
neither document is visible. -/
theorem C1_atomic_group_birth (store : Store) (s : Session)
    (name gid : String) (now : Timestamp)
    (hfreshG : lookupKey gid store.groups = none)
    (hfreshM : ∀ p ∈ store.members, p.1.1 ≠ gid)
    (hname : jsTrim name ≠ "") (huser : s.userName ≠ "") :
    ((handleCreateGroup store s name gid now true).1 = .ok gid ∧
      lookupKey gid (handleCreateGroup store s name gid now true).2.1.groups =
        some ⟨jsTrim name, s.userId, now⟩ ∧
      lookupKey (gid, s.userId) (handleCreateGroup store s name gid now true).2.1.members =
        some ⟨s.userName, now⟩ ∧
      1 ≤ (subscribeRoster (handleCreateGroup store s name gid now true).2.1 gid).length) ∧
    ((handleCreateGroup store s name gid now false).1 = .writeError ∧
      (handleCreateGroup store s name gid now false).2.1 = store ∧
      lookupKey gid (handleCreateGroup store s name gid now false).2.1.groups = none ∧
      subscribeRoster (handleCreateGroup store s name gid now false).2.1 gid = []) := by
  have hroster0 : store.members.filter (fun p => decide (p.1.1 = gid)) = [] := by
    rw [List.filter_eq_nil_iff]
    intro p hp
    simpa using hfreshM p hp
  constructor
  · refine ⟨?_, ?_, ?_, ?_⟩
    · simp [handleCreateGroup, hname, huser]
    · have h := lookupKey_upsert_self gid
        (Group.mk (jsTrim name) s.userId now) store.groups
      simpa [handleCreateGroup, hname, huser] using h
    · have h := lookupKey_upsert_self (gid, s.userId)
        (Membership.mk s.userName now) store.members
      simpa [handleCreateGroup, hname, huser] using h
    · simp only [handleCreateGroup, if_neg hname, if_neg huser, if_true,
        subscribeRoster, upsert]
      simp [List.filter_append]
  · refine ⟨?_, ?_, ?_, ?_⟩
    · simp [handleCreateGroup, hname, huser]
    · simp [handleCreateGroup, hname, huser]
    · simpa [handleCreateGroup, hname, huser] using hfreshG
    · simp [handleCreateGroup, hname, huser, subscribeRoster, hroster0]

/-- Witness for C1 at a concrete fresh store and session. -/
theorem C1_atomic_group_birth_witness :
    (lookupKey "g1" (Store.mk [] [] [] []).groups = none ∧
      (∀ p ∈ (Store.mk [] [] [] []).members, p.1.1 ≠ "g1") ∧
      jsTrim " Club " ≠ "" ∧
      (Session.mk "u" "Alice" none none []).userName ≠ "") ∧
    (((handleCreateGroup (Store.mk [] [] [] []) (Session.mk "u" "Alice" none none [])
        " Club " "g1" 5 true).1 = .ok "g1" ∧
      lookupKey "g1" (handleCreateGroup (Store.mk [] [] [] [])
        (Session.mk "u" "Alice" none none []) " Club " "g1" 5 true).2.1.groups =
        some ⟨jsTrim " Club ", (Session.mk "u" "Alice" none none []).userId, 5⟩ ∧
      lookupKey ("g1", (Session.mk "u" "Alice" none none []).userId)
        (handleCreateGroup (Store.mk [] [] [] [])
          (Session.mk "u" "Alice" none none []) " Club " "g1" 5 true).2.1.members =
        some ⟨(Session.mk "u" "Alice" none none []).userName, 5⟩ ∧
      1 ≤ (subscribeRoster (handleCreateGroup (Store.mk [] [] [] [])
        (Session.mk "u" "Alice" none none []) " Club " "g1" 5 true).2.1 "g1").length) ∧
    ((handleCreateGroup (Store.mk [] [] [] []) (Session.mk "u" "Alice" none none [])
        " Club " "g1" 5 false).1 = .writeError ∧
      (handleCreateGroup (Store.mk [] [] [] []) (Session.mk "u" "Alice" none none [])
        " Club " "g1" 5 false).2.1 = Store.mk [] [] [] [] ∧
      lookupKey "g1" (handleCreateGroup (Store.mk [] [] [] [])
        (Session.mk "u" "Alice" none none []) " Club " "g1" 5 false).2.1.groups = none ∧
      subscribeRoster (handleCreateGroup (Store.mk [] [] [] [])
        (Session.mk "u" "Alice" none none []) " Club " "g1" 5 false).2.1 "g1" = [])) :=
  ⟨⟨by decide, by decide, by decide, by decide⟩,
    C1_atomic_group_birth (Store.mk [] [] [] []) (Session.mk "u" "Alice" none none [])
      " Club " "g1" 5 (by decide) (by decide) (by decide) (by decide)⟩

/-- C2: for every user u and group g, the received-view contains exactly the
compliments with receiverId = u and groupId = g, the sent-view exactly those
with senderId = u and groupId = g; when no compliment has senderId equal to
receiverId the two views are disjoint and their union is all compliments of g
where u is sender or receiver. -/
theorem C2_view_completeness (store : Store) (u g : String)
    (h : ∀ c ∈ store.compliments, c.senderId ≠ c.receiverId) :
    (∀ c, c ∈ subscribeReceived store u g ↔
      c ∈ store.compliments ∧ c.receiverId = u ∧ c.groupId = g) ∧
    (∀ c, c ∈ subscribeSent store u g ↔
      c ∈ store.compliments ∧ c.senderId = u ∧ c.groupId = g) ∧
    (∀ c, ¬(c ∈ subscribeReceived store u g ∧ c ∈ subscribeSent store u g)) ∧
    (∀ c, (c ∈ subscribeReceived store u g ∨ c ∈ subscribeSent store u g) ↔
      (c ∈ store.compliments ∧ c.groupId = g ∧ (c.senderId = u ∨ c.receiverId = u))) := by
  have hr : ∀ c, c ∈ subscribeReceived store u g ↔
      c ∈ store.compliments ∧ c.receiverId = u ∧ c.groupId = g := by
    intro c
    unfold subscribeReceived sortByTimestampDesc receivedDocs
    rw [List.mem_mergeSort, List.mem_filter]
    simp
  have hs : ∀ c, c ∈ subscribeSent store u g ↔
      c ∈ store.compliments ∧ c.senderId = u ∧ c.groupId = g := by
    intro c
    unfold subscribeSent sortByTimestampDesc sentDocs
    rw [List.mem_mergeSort, List.mem_filter]
    simp
  refine ⟨hr, hs, ?_, ?_⟩
  · rintro c ⟨hc1, hc2⟩
    obtain ⟨hm, hrecv, -⟩ := (hr c).mp hc1
    obtain ⟨-, hsend, -⟩ := (hs c).mp hc2
    exact h c hm (hsend.trans hrecv.symm)
  · intro c
    constructor
    · rintro (hc | hc)
      · obtain ⟨hm, hrecv, hgrp⟩ := (hr c).mp hc
        exact ⟨hm, hgrp, Or.inr hrecv⟩
      · obtain ⟨hm, hsend, hgrp⟩ := (hs c).mp hc
        exact ⟨hm, hgrp, Or.inl hsend⟩
    · rintro ⟨hm, hgrp, hside | hside⟩
      · exact Or.inr ((hs c).mpr ⟨hm, hside, hgrp⟩)
      · exact Or.inl ((hr c).mpr ⟨hm, hside, hgrp⟩)

/-- Witness for C2 on a store holding one compliment from a to b in group g. -/
theorem C2_view_completeness_witness :
    (∀ c ∈ (Store.mk [] [] [] [⟨"c1", "a", "b", "g", "hi", some 1⟩]).compliments,
      c.senderId ≠ c.receiverId) ∧
    ((∀ c, c ∈ subscribeReceived (Store.mk [] [] [] [⟨"c1", "a", "b", "g", "hi", some 1⟩]) "b" "g" ↔
      c ∈ (Store.mk [] [] [] [⟨"c1", "a", "b", "g", "hi", some 1⟩]).compliments ∧
        c.receiverId = "b" ∧ c.groupId = "g") ∧
    (∀ c, c ∈ subscribeSent (Store.mk [] [] [] [⟨"c1", "a", "b", "g", "hi", some 1⟩]) "b" "g" ↔
      c ∈ (Store.mk [] [] [] [⟨"c1", "a", "b", "g", "hi", some 1⟩]).compliments ∧
        c.senderId = "b" ∧ c.groupId = "g") ∧
    (∀ c, ¬(c ∈ subscribeReceived (Store.mk [] [] [] [⟨"c1", "a", "b", "g", "hi", some 1⟩]) "b" "g" ∧
      c ∈ subscribeSent (Store.mk [] [] [] [⟨"c1", "a", "b", "g", "hi", some 1⟩]) "b" "g")) ∧
    (∀ c, (c ∈ subscribeReceived (Store.mk [] [] [] [⟨"c1", "a", "b", "g", "hi", some 1⟩]) "b" "g" ∨
      c ∈ subscribeSent (Store.mk [] [] [] [⟨"c1", "a", "b", "g", "hi", some 1⟩]) "b" "g") ↔
      (c ∈ (Store.mk [] [] [] [⟨"c1", "a", "b", "g", "hi", some 1⟩]).compliments ∧
        c.groupId = "g" ∧ (c.senderId = "b" ∨ c.receiverId = "b")))) :=
  ⟨by decide,
   C2_view_completeness (Store.mk [] [] [] [⟨"c1", "a", "b", "g", "hi", some 1⟩]) "b" "g"
     (by decide)⟩

/-- C3: on every push the received-view and the sent-view are the query
results resorted to descending server timestamp (a missing timestamp counts
as 0, via `tsKey`, and so sorts oldest); each view is a permutation of its
query result, is pairwise descending in the key, and records with equal keys
keep their stable relative order (filtering either side by any fixed key
yields the same sequence). -/
theorem C3_descending_stable_sort (store : Store) (u g : String) :
    ((subscribeReceived store u g).Perm (receivedDocs store u g) ∧
      (subscribeReceived store u g).Pairwise (fun a b => tsKey b ≤ tsKey a) ∧
      ∀ k, (subscribeReceived store u g).filter (fun c => decide (tsKey c = k)) =
        (receivedDocs store u g).filter (fun c => decide (tsKey c = k))) ∧
    ((subscribeSent store u g).Perm (sentDocs store u g) ∧
      (subscribeSent store u g).Pairwise (fun a b => tsKey b ≤ tsKey a) ∧
      ∀ k, (subscribeSent store u g).filter (fun c => decide (tsKey c = k)) =
        (sentDocs store u g).filter (fun c => decide (tsKey c = k))) :=
  ⟨⟨sortByTimestampDesc_perm _, sortByTimestampDesc_sorted _,
    fun k => sortByTimestampDesc_stable _ k⟩,
   ⟨sortByTimestampDesc_perm _, sortByTimestampDesc_sorted _,
    fun k => sortByTimestampDesc_stable _ k⟩⟩

/-- C4 counterexample: the empty groupId does not resolve to any group, yet
`handleJoinGroup` fails with the empty-id validation error, not with
NotFound. -/
theorem C4_counterexample :
    lookupKey (jsTrim "") (Store.mk [] [] [] []).groups = none ∧
    (handleJoinGroup (Store.mk [] [] [] [])
      (Session.mk "u" "Alice" none none []) "" 0).1 ≠ JoinResult.notFound ∧
    (handleJoinGroup (Store.mk [] [] [] [])
      (Session.mk "u" "Alice" none none []) "" 0).1 = JoinResult.validationEmptyGroupId := by
  decide

/-- C4 (amended): for every groupId whose trimmed value is nonempty but does
not resolve to an existing group document, and a session with a nonempty
display name, join fails with NotFound and performs no writes: the store is
unchanged and the current-group selection and remembered group id keep their
values. -/
theorem C4_join_not_found (store : Store) (s : Session) (gid : String) (now : Timestamp)
    (hid : jsTrim gid ≠ "") (hname : s.userName ≠ "")
    (habsent : lookupKey (jsTrim gid) store.groups = none) :
    (handleJoinGroup store s gid now).1 = .notFound ∧
    (handleJoinGroup store s gid now).2.1 = store ∧
    (handleJoinGroup store s gid now).2.2.currentGroupId = s.currentGroupId ∧
    (handleJoinGroup store s gid now).2.2.lastGroupId = s.lastGroupId := by
  simp [handleJoinGroup, hid, hname, habsent, showNotification]

/-- Witness for C4 (amended) on the empty store. -/
theorem C4_join_not_found_witness :
    (jsTrim "gx" ≠ "" ∧ (Session.mk "u" "Alice" none none []).userName ≠ "" ∧
      lookupKey (jsTrim "gx") (Store.mk [] [] [] []).groups = none) ∧
    ((handleJoinGroup (Store.mk [] [] [] [])
        (Session.mk "u" "Alice" none none []) "gx" 0).1 = .notFound ∧
      (handleJoinGroup (Store.mk [] [] [] [])
        (Session.mk "u" "Alice" none none []) "gx" 0).2.1 = Store.mk [] [] [] [] ∧
      (handleJoinGroup (Store.mk [] [] [] [])
        (Session.mk "u" "Alice" none none []) "gx" 0).2.2.currentGroupId =
        (Session.mk "u" "Alice" none none []).currentGroupId ∧
      (handleJoinGroup (Store.mk [] [] [] [])
        (Session.mk "u" "Alice" none none []) "gx" 0).2.2.lastGroupId =
        (Session.mk "u" "Alice" none none []).lastGroupId) :=
  ⟨⟨by decide, by decide, by decide⟩,
   C4_join_not_found (Store.mk [] [] [] []) (Session.mk "u" "Alice" none none [])
     "gx" 0 (by decide) (by decide) (by decide)⟩

/-- C5: join is an upsert keyed by (groupId, identity): joining the same
existing group twice from the same session leaves exactly one Membership
document for that pair, and its userName snapshot and joinedAt are those of
the second call. -/
theorem C5_join_upsert (store : Store) (s : Session) (gid : String) (t1 t2 : Timestamp)
    (hid : jsTrim gid ≠ "") (hname : s.userName ≠ "")
    (hg : (lookupKey (jsTrim gid) store.groups).isSome) :
    (handleJoinGroup (handleJoinGroup store s gid t1).2.1
        (handleJoinGroup store s gid t1).2.2 gid t2).2.1.members.countP
      (fun p => decide (p.1 = (jsTrim gid, s.userId))) = 1 ∧
    lookupKey (jsTrim gid, s.userId)
      (handleJoinGroup (handleJoinGroup store s gid t1).2.1
        (handleJoinGroup store s gid t1).2.2 gid t2).2.1.members =
      some ⟨s.userName, t2⟩ := by
  obtain ⟨grp, hgrp⟩ := Option.isSome_iff_exists.mp hg
  have h1 : handleJoinGroup store s gid t1 =
      (.ok,
       { store with
          members := upsert (jsTrim gid, s.userId) ⟨s.userName, t1⟩ store.members },
       showNotification
         { s with
            currentGroupId := some (jsTrim gid), lastGroupId := some (jsTrim gid) }
         ("Successfully joined \"" ++ grp.groupName ++ "\"!") false) := by
    simp [handleJoinGroup, hid, hname, hgrp]
  rw [h1]
  have h2 : handleJoinGroup
      { store with
          members := upsert (jsTrim gid, s.userId) ⟨s.userName, t1⟩ store.members }
      (showNotification
        { s with
           currentGroupId := some (jsTrim gid), lastGroupId := some (jsTrim gid) }
        ("Successfully joined \"" ++ grp.groupName ++ "\"!") false) gid t2 =
      (.ok,
       { store with
          members := upsert (jsTrim gid, s.userId) ⟨s.userName, t2⟩
            (upsert (jsTrim gid, s.userId) ⟨s.userName, t1⟩ store.members) },
       showNotification
         (showNotification
           { s with
              currentGroupId := some (jsTrim gid), lastGroupId := some (jsTrim gid) }
           ("Successfully joined \"" ++ grp.groupName ++ "\"!") false)
         ("Successfully joined \"" ++ grp.groupName ++ "\"!") false) := by
    simp [handleJoinGroup, hid, hname, hgrp, showNotification]
  rw [h2]
  exact ⟨countKey_upsert .., lookupKey_upsert_self ..⟩

/-- Witness for C5 on a store holding one group. -/
theorem C5_join_upsert_witness :
    (jsTrim "g1" ≠ "" ∧ (Session.mk "u" "Alice" none none []).userName ≠ "" ∧
      (lookupKey (jsTrim "g1")
        (Store.mk [] [("g1", ⟨"Club", "c", 0⟩)] [] []).groups).isSome) ∧
    ((handleJoinGroup
        (handleJoinGroup (Store.mk [] [("g1", ⟨"Club", "c", 0⟩)] [] [])
          (Session.mk "u" "Alice" none none []) "g1" 1).2.1
        (handleJoinGroup (Store.mk [] [("g1", ⟨"Club", "c", 0⟩)] [] [])
          (Session.mk "u" "Alice" none none []) "g1" 1).2.2 "g1" 2).2.1.members.countP
      (fun p => decide (p.1 = (jsTrim "g1", (Session.mk "u" "Alice" none none []).userId))) = 1 ∧
    lookupKey (jsTrim "g1", (Session.mk "u" "Alice" none none []).userId)
      (handleJoinGroup
        (handleJoinGroup (Store.mk [] [("g1", ⟨"Club", "c", 0⟩)] [] [])
          (Session.mk "u" "Alice" none none []) "g1" 1).2.1
        (handleJoinGroup (Store.mk [] [("g1", ⟨"Club", "c", 0⟩)] [] [])
          (Session.mk "u" "Alice" none none []) "g1" 1).2.2 "g1" 2).2.1.members =
      some ⟨(Session.mk "u" "Alice" none none []).userName, 2⟩) :=
  ⟨⟨by decide, by decide, by decide⟩,
   C5_join_upsert (Store.mk [] [("g1", ⟨"Club", "c", 0⟩)] [] [])
     (Session.mk "u" "Alice" none none []) "g1" 1 2 (by decide) (by decide) (by decide)⟩

/-- C6: saving a display name fails with the validation error and leaves the
profile document unchanged when the name trims to empty; otherwise it fully
replaces the profile document with the trimmed name, and the profile
subscription subsequently yields exactly that trimmed name. -/
theorem C6_save_name (store : Store) (uid editingName : String) :
    (jsTrim editingName = "" →
      handleSaveName store (some uid) editingName = (.validationEmptyName, store)) ∧
    (jsTrim editingName ≠ "" →
      ((handleSaveName store (some uid) editingName).1 = .ok ∧
       lookupKey uid (handleSaveName store (some uid) editingName).2.users =
         some ⟨jsTrim editingName⟩ ∧
       subscribeProfile (handleSaveName store (some uid) editingName).2 uid =
         some (jsTrim editingName))) := by
  constructor
  · intro h
    simp [handleSaveName, h]
  · intro h
    have hlook : lookupKey uid
        (upsert uid (Profile.mk (jsTrim editingName)) store.users) =
        some ⟨jsTrim editingName⟩ := lookupKey_upsert_self ..
    refine ⟨?_, ?_, ?_⟩
    · simp [handleSaveName, h]
    · simpa [handleSaveName, h] using hlook
    · simp [handleSaveName, h, subscribeProfile, hlook]

/-- Witness for C6: a name of only blanks is rejected with the store kept
intact, and a padded name is stored and observed trimmed. -/
theorem C6_save_name_witness :
    (jsTrim "  " = "" ∧
      handleSaveName (Store.mk [] [] [] []) (some "u") "  " =
        (.validationEmptyName, Store.mk [] [] [] [])) ∧
    (jsTrim " Bob " ≠ "" ∧
      ((handleSaveName (Store.mk [] [] [] []) (some "u") " Bob ").1 = .ok ∧
       lookupKey "u" (handleSaveName (Store.mk [] [] [] []) (some "u") " Bob ").2.users =
         some ⟨jsTrim " Bob "⟩ ∧
       subscribeProfile (handleSaveName (Store.mk [] [] [] []) (some "u") " Bob ").2 "u" =
         some (jsTrim " Bob "))) :=
  ⟨⟨by decide, (C6_save_name (Store.mk [] [] [] []) "u" "  ").1 (by decide)⟩,
   ⟨by decide, (C6_save_name (Store.mk [] [] [] []) "u" " Bob ").2 (by decide)⟩⟩

/-- C7: sending a compliment fails with the validation error exactly when the
selected receiver is empty or the message trims to empty, and then writes no
record; otherwise it appends exactly one new record carrying the given
sender, receiver, group and message and the server-assigned timestamp. -/
theorem C7_send_validation (store : Store) (uid fid gid msg newId : String)
    (now : Timestamp) :
    ((fid = "" ∨ jsTrim msg = "") →
      handleSendCompliment store uid fid gid msg newId now = (.validationError, store)) ∧
    (¬(fid = "" ∨ jsTrim msg = "") →
      handleSendCompliment store uid fid gid msg newId now =
        (.ok, { store with compliments := store.compliments ++
          [⟨newId, uid, fid, gid, msg, some now⟩] })) := by
  constructor
  · intro h
    simp only [handleSendCompliment, if_pos h]
  · intro h
    simp only [handleSendCompliment, if_neg h]

/-- Witness for C7: an empty receiver is rejected with no write, and a valid
send appends exactly the one expected record. -/
theorem C7_send_validation_witness :
    ((("" : String) = "" ∨ jsTrim "hi" = "") ∧
      handleSendCompliment (Store.mk [] [] [] []) "u" "" "g" "hi" "c1" 7 =
        (.validationError, Store.mk [] [] [] [])) ∧
    (¬(("b" : String) = "" ∨ jsTrim "hi" = "") ∧
      handleSendCompliment (Store.mk [] [] [] []) "u" "b" "g" "hi" "c1" 7 =
        (.ok, { Store.mk [] [] [] [] with compliments :=
          (Store.mk [] [] [] []).compliments ++ [⟨"c1", "u", "b", "g", "hi", some 7⟩] })) :=
  ⟨⟨by decide, (C7_send_validation (Store.mk [] [] [] []) "u" "" "g" "hi" "c1" 7).1
      (by decide)⟩,
   ⟨by decide, (C7_send_validation (Store.mk [] [] [] []) "u" "b" "g" "hi" "c1" 7).2
      (by decide)⟩⟩

/-- C8 counterexample: when the subscribed group document is observed absent,
the session does transition out of the group and the remembered id is
cleared, but two notices are raised (the deletion error and then the leave
confirmation of `handleLeaveGroup`), not exactly one. -/
theorem C8_counterexample :
    (onGroupSnapshot (Store.mk [] [] [] [])
      (Session.mk "u" "A" (some "g1") (some "g1") []) "g1" "Club").1.currentGroupId = none ∧
    (onGroupSnapshot (Store.mk [] [] [] [])
      (Session.mk "u" "A" (some "g1") (some "g1") []) "g1" "Club").1.lastGroupId = none ∧
    (onGroupSnapshot (Store.mk [] [] [] [])
      (Session.mk "u" "A" (some "g1") (some "g1") []) "g1" "Club").1.notices.length = 2 ∧
    ¬((onGroupSnapshot (Store.mk [] [] [] [])
      (Session.mk "u" "A" (some "g1") (some "g1") []) "g1" "Club").1.notices.length = 1) := by
  decide

/-- C8 (amended): when the group-meta subscription observes the current group
absent, the session transitions to no group selected and the remembered
last-group id is cleared, and two notices are raised in immediate succession
(the deletion error, then the leave confirmation), the second replacing the
first in the single visible notification slot. -/
theorem C8_group_deleted (store : Store) (s : Session) (gid gname : String)
    (habsent : lookupKey gid store.groups = none)
    (_hin : s.currentGroupId = some gid) :
    (onGroupSnapshot store s gid gname).1.currentGroupId = none ∧
    (onGroupSnapshot store s gid gname).1.lastGroupId = none ∧
    (onGroupSnapshot store s gid gname).1.notices =
      s.notices ++ [⟨"The group you were in may have been deleted.", true⟩,
                    ⟨"You have left the group.", false⟩] ∧
    visibleNotice (onGroupSnapshot store s gid gname).1 =
      some ⟨"You have left the group.", false⟩ := by
  refine ⟨?_, ?_, ?_, ?_⟩
  · simp [onGroupSnapshot, habsent, handleLeaveGroup, showNotification]
  · simp [onGroupSnapshot, habsent, handleLeaveGroup, showNotification]
  · simp [onGroupSnapshot, habsent, handleLeaveGroup, showNotification]
  · have h : (onGroupSnapshot store s gid gname).1.notices =
        (s.notices ++ [⟨"The group you were in may have been deleted.", true⟩]) ++
          [⟨"You have left the group.", false⟩] := by
      simp [onGroupSnapshot, habsent, handleLeaveGroup, showNotification]
    rw [visibleNotice, h, List.getLast?_concat]

/-- Witness for C8 (amended) with a session currently in the deleted group. -/
theorem C8_group_deleted_witness :
    (lookupKey "g1" (Store.mk [] [] [] []).groups = none ∧
      (Session.mk "u" "A" (some "g1") (some "g1") []).currentGroupId = some "g1") ∧
    ((onGroupSnapshot (Store.mk [] [] [] [])
        (Session.mk "u" "A" (some "g1") (some "g1") []) "g1" "Club").1.currentGroupId = none ∧
      (onGroupSnapshot (Store.mk [] [] [] [])
        (Session.mk "u" "A" (some "g1") (some "g1") []) "g1" "Club").1.lastGroupId = none ∧
      (onGroupSnapshot (Store.mk [] [] [] [])
        (Session.mk "u" "A" (some "g1") (some "g1") []) "g1" "Club").1.notices =
        (Session.mk "u" "A" (some "g1") (some "g1") []).notices ++
          [⟨"The group you were in may have been deleted.", true⟩,
           ⟨"You have left the group.", false⟩] ∧
      visibleNotice (onGroupSnapshot (Store.mk [] [] [] [])
        (Session.mk "u" "A" (some "g1") (some "g1") []) "g1" "Club").1 =
        some ⟨"You have left the group.", false⟩) :=
  ⟨⟨by decide, by decide⟩,
   C8_group_deleted (Store.mk [] [] [] [])
     (Session.mk "u" "A" (some "g1") (some "g1") []) "g1" "Club"
     (by decide) (by decide)⟩

/-- C9: when the (identity, groupId) pair changes, the previous effect run's
cleanup disposes all four of its subscriptions before the new run attaches
its own, so every active subscription afterwards is keyed on the new pair and
no update tagged with the previous pair is ever delivered to any of the
session's views. -/
theorem C9_no_cross_group_bleed (prev : List Subscription) (u1 g1 u2 g2 : String)
    (hne : (u1, g1) ≠ (u2, g2)) :
    cleanupEffect (effectSubs true (some u1) (some g1)) = [] ∧
    (∀ sub ∈ runEffect prev true (some u2) (some g2),
      sub.userId = u2 ∧ sub.groupId = g2) ∧
    (∀ k, Subscription.mk u1 g1 k ∉ runEffect prev true (some u2) (some g2)) ∧
    (∀ v data, deliverReceived (runEffect prev true (some u2) (some g2)) v u1 g1 data = v) ∧
    (∀ v data, deliverSent (runEffect prev true (some u2) (some g2)) v u1 g1 data = v) ∧
    (∀ v data, deliverRoster (runEffect prev true (some u2) (some g2)) v u1 g1 data = v) ∧
    (∀ v data, deliverGroupMeta (runEffect prev true (some u2) (some g2)) v u1 g1 data = v) := by
  have hmem : ∀ sub ∈ runEffect prev true (some u2) (some g2),
      sub.userId = u2 ∧ sub.groupId = g2 := by
    intro sub hsub
    simp only [runEffect, cleanupEffect, effectSubs, List.nil_append,
      List.mem_cons, List.not_mem_nil, or_false] at hsub
    rcases hsub with h | h | h | h <;> subst h <;> exact ⟨rfl, rfl⟩
  have hnot : ∀ k, Subscription.mk u1 g1 k ∉ runEffect prev true (some u2) (some g2) := by
    intro k hk
    obtain ⟨hu, hg⟩ := hmem _ hk
    exact hne (Prod.ext hu hg)
  refine ⟨rfl, hmem, hnot, ?_, ?_, ?_, ?_⟩ <;> intro v data
  · rw [deliverReceived, if_neg (hnot .received)]
  · rw [deliverSent, if_neg (hnot .sent)]
  · rw [deliverRoster, if_neg (hnot .roster)]
  · rw [deliverGroupMeta, if_neg (hnot .groupMeta)]

/-- Witness for C9: the previous pair subscribed group a, the new run
subscribes group b. -/
theorem C9_no_cross_group_bleed_witness :
    (("u", "a") ≠ (("u" : String), ("b" : String))) ∧
    (cleanupEffect (effectSubs true (some "u") (some "a")) = [] ∧
      (∀ sub ∈ runEffect (effectSubs true (some "u") (some "a")) true (some "u") (some "b"),
        sub.userId = "u" ∧ sub.groupId = "b") ∧
      (∀ k, Subscription.mk "u" "a" k ∉
        runEffect (effectSubs true (some "u") (some "a")) true (some "u") (some "b")) ∧
      (∀ v data, deliverReceived
        (runEffect (effectSubs true (some "u") (some "a")) true (some "u") (some "b"))
        v "u" "a" data = v) ∧
      (∀ v data, deliverSent
        (runEffect (effectSubs true (some "u") (some "a")) true (some "u") (some "b"))
        v "u" "a" data = v) ∧
      (∀ v data, deliverRoster
        (runEffect (effectSubs true (some "u") (some "a")) true (some "u") (some "b"))
        v "u" "a" data = v) ∧
      (∀ v data, deliverGroupMeta
        (runEffect (effectSubs true (some "u") (some "a")) true (some "u") (some "b"))
        v "u" "a" data = v)) :=
  ⟨by decide,
   C9_no_cross_group_bleed (effectSubs true (some "u") (some "a")) "u" "a" "u" "b"
     (by decide)⟩

/-- C10: for every message that does not trim to empty, the stored compliment
record carries the message string verbatim, untrimmed: trimming occurs only
in the validation check. -/
theorem C10_message_verbatim (store : Store) (uid fid gid msg newId : String)
    (now : Timestamp) (hfid : fid ≠ "") (hmsg : jsTrim msg ≠ "") :
    (handleSendCompliment store uid fid gid msg newId now).2.compliments.getLast? =
      some ⟨newId, uid, fid, gid, msg, some now⟩ ∧
    (Compliment.mk newId uid fid gid msg (some now)).message = msg := by
  have h : ¬(fid = "" ∨ jsTrim msg = "") := by
    rintro (h | h)
    · exact hfid h
    · exact hmsg h
  refine ⟨?_, rfl⟩
  simp only [handleSendCompliment, if_neg h]
  exact List.getLast?_concat _

/-- Witness for C10 with a message padded by whitespace on both ends. -/
theorem C10_message_verbatim_witness :
    (("b" : String) ≠ "" ∧ jsTrim "  kind words  " ≠ "") ∧
    ((handleSendCompliment (Store.mk [] [] [] []) "u" "b" "g" "  kind words  " "c1" 7).2.compliments.getLast? =
      some ⟨"c1", "u", "b", "g", "  kind words  ", some 7⟩ ∧
    (Compliment.mk "c1" "u" "b" "g" "  kind words  " (some 7)).message = "  kind words  ") :=
  ⟨⟨by decide, by decide⟩,
   C10_message_verbatim (Store.mk [] [] [] []) "u" "b" "g" "  kind words  " "c1" 7
     (by decide) (by decide)⟩

end Secretly
